import Mathlib

set_option maxRecDepth 8192

/-
Verification development for the telegram_view repository.

The repository contains two alternate bot implementations:
  * src/telegram_view/view.py            (class View): the business-description
    state machine (WAITING_FOR_DESCRIPTION / CHATTING) backed by a SQLite table,
  * src/telegram_view/interfaces/telegram_tester_bot.py (class TesterBotInterface):
    the tester interface with the reporting sub-flow, a global chat history and
    per-user model preferences,
together with the shared message catalog src/telegram_view/messages.py and the
attachment helpers file_utils.py / image_utils.py.

Both implementations are embedded shallowly below: Python dictionaries become
association lists, sets become duplicate-free lists, exceptions become Option /
explicit control flow, and external I/O (Telegram API, orchestrator callback,
Google Sheets, S3) becomes oracle parameters.  Every definition follows the
corresponding Python function line by line; deviations forced by the embedding
are noted in the doc comments.
-/

/-- Python dictionary lookup (`d.get(k)` / `d[k]` with presence as `Option`). -/
def dict_get {κ α : Type} [DecidableEq κ] (d : List (κ × α)) (k : κ) : Option α :=
  match d with
  | [] => none
  | (k', v) :: rest => if k' = k then some v else dict_get rest k

/-- Python dictionary assignment `d[k] = v` (replaces any existing binding). -/
def dict_set {κ α : Type} [DecidableEq κ] (d : List (κ × α)) (k : κ) (v : α) :
    List (κ × α) :=
  (k, v) :: d.filter (fun r => decide (r.1 ≠ k))

/-- Python `str.lower()` as the executable per-character lowering of the
character list (`String.toLower` itself is not kernel-reducible).  Language
codes are ASCII, where the two functions agree. -/
def py_lower (s : String) : String :=
  String.mk (s.data.map Char.toLower)

/-- Python `x or default` on an optional string: `None` and `""` are falsy. -/
def py_or (x : Option String) (dflt : String) : String :=
  match x with
  | some s => if s = "" then dflt else s
  | none => dflt

/-- The English message table of `messages.py` (`MESSAGES["en"]`). -/
def en_messages : List (String × String) :=
  [("welcome", "👋 Welcome! I'm your Business Assistant Bot.\n\nI'm here to help you create an AI assistant for your business that can answer customer questions accurately and professionally.\n\nPlease tell me about your business. Include details such as:\n- Main products or services you offer\n- Working hours and schedule\n- Location and contact methods\n- Pricing information\n- Special features or unique selling points\n- Any policies customers should know about\n\nThe more details you provide, the better I'll be able to assist your customers! 🎯"),
   ("description_accepted", "✨ Perfect! I've recorded your business details.\n\nYou can now chat with me as if you were a customer. I'll respond based on the information you provided.\n\nFeel free to ask any questions about your business, and I'll do my best to help! 🚀"),
   ("error", "I apologize, but an error occurred. Please try again or contact support if the issue persists.")]

/-- The Russian message table of `messages.py` (`MESSAGES["ru"]`). -/
def ru_messages : List (String × String) :=
  [("welcome", "👋 Добро пожаловать! Я ваш бизнес-ассистент.\n\nЯ помогу создать AI-ассистента для вашего бизнеса, который сможет профессионально отвечать на вопросы клиентов.\n\nПожалуйста, опишите ваш бизнес. Укажите:\n- Основные товары/услуги\n- График работы\n- Контактные данные и местоположение\n- Ценовую политику\n- Уникальные особенности вашего бизнеса\n- Важные правила и условия\n\nЧем больше деталей вы предоставите, тем лучше я смогу помогать вашим клиентам! 🎯"),
   ("description_accepted", "✨ Отлично! Я записал информацию о вашем бизнесе.\n\nТеперь вы можете общаться со мной как клиент. Я буду отвечать на основе предоставленной вами информации.\n\nНе стесняйтесь задавать любые вопросы о вашем бизнесе, и я сделаю все возможное, чтобы помочь! 🚀"),
   ("error", "Извините, произошла ошибка. Пожалуйста, попробуйте еще раз или обратитесь в поддержку, если проблема не устранена.")]

/-- The Hebrew message table of `messages.py` (`MESSAGES["he"]`). -/
def he_messages : List (String × String) :=
  [("welcome", "👋 ברוך הבא! אני הבוט העסקי שלך.\n\nאני כאן כדי לעזור לך ליצור עוזר AI לעסק שלך שיוכל לענות על שאלות לקוחות בצורה מדויקת ומקצועית.\n\nאנא ספר לי על העסק שלך. כלול פרטים כמו:\n- המוצרים או השירותים העיקריים שאתה מציע\n- שעות עבודה ולוח זמנים\n- מיקום ושיטות יצירת קשר\n- מידע על תמחור\n- מאפיינים מיוחדים או נקודות מכירה ייחודיות\n- כל מדיניות שלקוחות צריכים לדעת עליה\n\nככל שתספק יותר פרטים, כך אוכל לעזור ללקוחות שלך טוב יותר! 🎯"),
   ("description_accepted", "✨ מושלם! רשמתי את פרטי העסק שלך.\n\nכעת אתה יכול לשוחח איתי כאילו היית לקוח. אני אגיב בהתבסס על המידע שסיפקת.\n\nאל תהסס לשאול כל שאלה על העסק שלך, ואני אעשה כמיטב יכולתי לעזור! 🚀"),
   ("error", "אני מתנצל, אך אירעה שגיאה. אנא נסה שוב או פנה לתמיכה אם הבעיה נמשכת.")]

/-- `MESSAGES` of `messages.py`: language code to message table. -/
def MESSAGES : List (String × List (String × String)) :=
  [("en", en_messages), ("ru", ru_messages), ("he", he_messages)]

/-- The `language_mapping` dictionary inside `get_message`. -/
def language_mapping : List (String × String) :=
  [("ru", "ru"), ("he", "he"), ("iw", "he")]

/-- `messages.py: get_message`.  `none` models an uncaught `KeyError`: the
Python code falls back to `MESSAGES["en"][message_key]`, which itself raises
when the key is absent from the English table as well. -/
def get_message (message_key : String) (language_code : String) : Option String :=
  let lang := (dict_get language_mapping (py_lower language_code)).getD "en"
  match (dict_get MESSAGES lang).bind (fun tbl => dict_get tbl message_key) with
  | some m => some m
  | none => (dict_get MESSAGES "en").bind (fun tbl => dict_get tbl message_key)

/-- `get_message` as used by the handlers for the keys "welcome",
"description_accepted" and "error", which are present in every language table,
so the `""` default branch is dead code there (`get_message_handler_keys_total`
below).  The one key for which `get_message` actually raises
("unsupported_content") is modelled with the `Option` result explicitly in
`handle_telegram_message`. -/
def get_message_ex (message_key : String) (language_code : String) : String :=
  (get_message message_key language_code).getD ""

/-
The View class of view.py: the business-description state machine.

The SQLite `users` table is modelled as an association list from user id to the
`business_description` column (the only column the control flow reads); a key
being absent models the row being absent.  `sqlite3.Error` is logged and
swallowed in every DB helper of the source, so DB operations are modelled as
total functions.  The orchestrator callback `view_callback` is modelled by a
boolean oracle `cbOk` telling whether the awaited call raises; the source always
installs a callback, so the `if self.view_callback:` guard is taken.
-/

/-- `view.py: UserState`. -/
inductive UserState
  | waiting_for_description
  | chatting
deriving DecidableEq

/-- The `users` SQLite table: user id to `business_description`. -/
abbrev UserDb := List (Nat × String)

/-- `View._delete_business_description`: `DELETE FROM users WHERE user_id = ?`. -/
def db_delete_user (db : UserDb) (u : Nat) : UserDb :=
  db.filter (fun r => decide (r.1 ≠ u))

/-- `View.save_user_details`: `INSERT OR REPLACE` of the row with an empty
business description (the name columns are not read back by the control flow
and are omitted). -/
def db_insert_user (db : UserDb) (u : Nat) : UserDb :=
  (u, "") :: db_delete_user db u

/-- `View._save_business_description`: `UPDATE users SET business_description`.
An SQL UPDATE touches only existing rows: when the user has no row it is a
silent no-op, exactly as in the source. -/
def db_update_description (db : UserDb) (u : Nat) (d : String) : UserDb :=
  match db with
  | [] => []
  | (k, v) :: rest =>
    if k = u then (k, d) :: db_update_description rest u d
    else (k, v) :: db_update_description rest u d

/-- `View._get_business_description`: `SELECT business_description ...`,
returning `result[0] if result else None`. -/
def db_get_description (db : UserDb) (u : Nat) : Option String :=
  dict_get db u

/-- Python truthiness of the fetched description (`if description:`): both a
missing row (`None`) and an empty string are falsy. -/
def desc_truthy (db : UserDb) (u : Nat) : Bool :=
  match db_get_description db u with
  | some s => decide (s ≠ "")
  | none => false

/-- The in-memory state of a `View` instance: `self.user_states` and the
SQLite table. -/
structure ViewState where
  user_states : List (Nat × UserState)
  db : UserDb
deriving DecidableEq

/-- The two dictionaries `view.py` sends through `view_callback`, as a tagged
union: `{"type": "delete_entries_by_thread_id", "chat_id", "sender"}` and
`{"type": "text", "chat_id", "user_id", "sender", "text", "name"}`. -/
inductive ViewCallbackData
  | delete_entries_by_thread_id (chat_id sender : String)
  | text (chat_id user_id sender text name : String)
deriving DecidableEq

/-- Observable effects of a `View` handler: the typing indicator, a
`message.answer` send, and an orchestrator callback invocation. -/
inductive ViewOut
  | typing
  | answer (text : String)
  | callback (data : ViewCallbackData)
deriving DecidableEq

/-- `View._start_command`.  The `cbOk` flag says whether the
`delete_entries_by_thread_id` callback raises; the source catches the exception
and only logs it, so the emitted effects do not depend on `cbOk`.  The welcome
message always exists in the catalog, so `get_message` cannot raise here. -/
def view_start_command (_cbOk : Bool) (u : Nat) (lang : String) (st : ViewState) :
    ViewState × List ViewOut :=
  let db1 := db_insert_user (db_delete_user st.db u) u
  let states1 := dict_set st.user_states u UserState.waiting_for_description
  let cbData := ViewCallbackData.delete_entries_by_thread_id (toString u) (toString u)
  (⟨states1, db1⟩,
   [ViewOut.callback cbData, ViewOut.answer (get_message_ex "welcome" lang)])

/-- The lazy state initialization at the top of `View._handle_message`: a user
with no entry in `user_states` is classified from the DB description
(truthiness: an existing row with `""` still counts as no description). -/
def view_init_state (st : ViewState) (u : Nat) : ViewState :=
  match dict_get st.user_states u with
  | some _ => st
  | none =>
    if desc_truthy st.db u then
      ⟨dict_set st.user_states u UserState.chatting, st.db⟩
    else
      ⟨dict_set st.user_states u UserState.waiting_for_description, st.db⟩

/-- The content of an inbound message as `View._handle_message` inspects it:
`message.content_type == 'text'` or anything else. -/
inductive ViewContent
  | text (t : String)
  | other
deriving DecidableEq

/-- `View._handle_message`.  `cbOk` is the orchestrator-callback oracle (does
`await self.view_callback(data_dict)` return normally?).  The outer
`except Exception` of the source is unreachable in the embedding because every
modelled operation is total; the callback failure is caught by the inner
`try/except`, which answers the localized generic error message. -/
def view_handle_message (cbOk : ViewCallbackData → Bool) (u : Nat)
    (username : String) (lang : String) (content : ViewContent) (st : ViewState) :
    ViewState × List ViewOut :=
  let st1 := view_init_state st u
  match content with
  | ViewContent.other =>
    (st1, [ViewOut.typing, ViewOut.answer (get_message_ex "error" lang)])
  | ViewContent.text t =>
    match dict_get st1.user_states u with
    | some UserState.waiting_for_description =>
      let st2 : ViewState :=
        ⟨dict_set st1.user_states u UserState.chatting, db_update_description st1.db u t⟩
      (st2, [ViewOut.typing, ViewOut.answer (get_message_ex "description_accepted" lang)])
    | some UserState.chatting =>
      if desc_truthy st1.db u then
        let data := ViewCallbackData.text (toString u) (toString u) (toString u) t username
        if cbOk data then
          (st1, [ViewOut.typing, ViewOut.callback data])
        else
          (st1, [ViewOut.typing, ViewOut.callback data,
                 ViewOut.answer (get_message_ex "error" lang)])
      else
        (⟨dict_set st1.user_states u UserState.waiting_for_description, st1.db⟩,
         [ViewOut.typing, ViewOut.answer (get_message_ex "welcome" lang)])
    | none =>
      -- unreachable: `view_init_state` always leaves an entry for `u`
      (st1, [ViewOut.typing])

/-
TesterBotInterface of telegram_tester_bot.py, with the attachment helpers of
file_utils.py and image_utils.py.

`self.chat_history` is a single list shared by all users, `reporting_users` a
set of user ids (duplicate-free list), `user_model_preferences` a dictionary.
The aiogram transport, the orchestrator callback `handle_message` and the
Google-Sheets sink of tester_utils.py are external collaborators: network
results are oracle fields of the inbound event, the callback is the boolean
oracle `cbOk`, and the sink write is recorded as an `issue_report` effect.
-/

/-- One entry of `self.chat_history`: the dict `{"type": ..., "message": ...}`
with `type` either `"user"` or `"ai"`. -/
structure ChatEntry where
  type : String
  message : String
deriving DecidableEq

/-- The mutable state of a `TesterBotInterface` instance. -/
structure TesterState where
  chat_history : List ChatEntry
  reporting_users : List Nat
  user_model_preferences : List (Nat × String)
deriving DecidableEq

/-- The model-descriptor dictionaries produced by
`TesterBotInterface._get_current_model_info` (and by the external
`common_utils.allowed_models.get_model_by_id`). -/
structure ModelInfo where
  id : String
  name : Option String
  provider : String
  source : String
deriving DecidableEq

/-- Configuration of the tester interface.  `get_model_by_id` and
`allowed_models` stand for the external `common_utils.allowed_models` module;
`default_model` folds the config-default and `{"source": "unknown"}` branches
of `_get_current_model_info`; `token` is the bot token used by the attachment
URL builders. -/
structure TesterCfg where
  title : String
  show_model_selector : Bool
  get_model_by_id : String → Option ModelInfo
  default_model : ModelInfo
  allowed_models : List (String × String)
  token : String

/-- `message.from_user` as far as the handlers read it. -/
structure TgUser where
  id : Nat
  language_code : Option String
deriving DecidableEq

/-- `message.from_user.language_code or "en"` (Python `or`: `None` and `""`
are falsy). -/
def lang_of (u : TgUser) : String :=
  py_or u.language_code "en"

/-- `TesterBotInterface._get_current_model_info`. -/
def get_current_model_info (cfg : TesterCfg) (prefs : List (Nat × String))
    (u : Nat) : ModelInfo :=
  match dict_get prefs u with
  | some mid =>
    match cfg.get_model_by_id mid with
    | some mi => { mi with source := "user_selected" }
    | none => cfg.default_model
  | none => cfg.default_model

/-- The `text` argument of `process_message`: `None` for commands, the plain
text for text messages, and the `image_data` / `document_data` /
`audio_msg_data` dictionaries for attachments.  The image dictionary is kept as
a literal key-value list so that the set of keys it carries is part of the
statement (`{"image": ..., "caption": ...}`). -/
inductive MsgPayload
  | empty
  | textData (s : String)
  | imageData (d : List (String × String))
  | documentData (file : String) (mime_type : String) (file_name : Option String)
      (caption : String)
  | audioData (audio : String) (mime_type : String) (caption : String)
deriving DecidableEq

/-- The `message_data` dictionary built by `process_message`.  The fields
`username`, `first_name`, `last_name`, `full_name` and `timestamp` are opaque
pass-through values never read by any control flow in the repository and are
omitted; `settings_model` is `settings = {"model": m} if selected else {}`. -/
structure MessageData where
  mtype : String
  user_id : Nat
  chat_id : Nat
  language_code : String
  text : MsgPayload
  settings_model : Option String
deriving DecidableEq

/-- Observable effects of the tester handlers: typing action, a
`message.answer` send, the orchestrator-callback invocation `handle_message`,
a Telegram file fetch (`bot.get_file` / `bot.download_file`), the issue-sink
write `handle_issue_report`, and the two model-selection callback effects. -/
inductive TesterOut
  | typing
  | answer (text : String)
  | handle_message (md : MessageData)
  | fetch
  | issue_report (chat_id : Nat) (details : String) (history : List ChatEntry)
      (model_info : ModelInfo)
  | callback_ack (text : String)
  | edit_text (text : String)
deriving DecidableEq

/-- Builds the `message_data` dictionary of `process_message`. -/
def build_message_data (u : TgUser) (chat_id : Nat) (prefs : List (Nat × String))
    (mtype : String) (payload : MsgPayload) : MessageData :=
  { mtype := mtype, user_id := u.id, chat_id := chat_id,
    language_code := lang_of u, text := payload,
    settings_model := dict_get prefs u.id }

/-- `process_message` inside `setup_handlers`: builds `message_data`, awaits
`handle_message` and deliberately does not relay any return value (the relay
code is commented out in the source).  When the callback raises, the exception
is reported and, for `"text_message"` turns only, the localized generic error
message is answered; for every other message type the failure is only logged. -/
def process_message (cbOk : MessageData → Bool) (u : TgUser) (chat_id : Nat)
    (prefs : List (Nat × String)) (mtype : String) (payload : MsgPayload) :
    List TesterOut :=
  let md := build_message_data u chat_id prefs mtype payload
  if cbOk md then
    [TesterOut.handle_message md]
  else if mtype = "text_message" then
    [TesterOut.handle_message md, TesterOut.answer (get_message_ex "error" (lang_of u))]
  else
    [TesterOut.handle_message md]

/-- The welcome text of `start_command`: `config.title`, with the active model
appended when the model selector is enabled
(`model_info.get("name") or model_info.get("id", "Unknown")`). -/
def tester_welcome (cfg : TesterCfg) (prefs : List (Nat × String)) (u : Nat) :
    String :=
  if cfg.show_model_selector then
    let mi := get_current_model_info cfg prefs u
    cfg.title ++ "\n\n🤖 Model: " ++ py_or mi.name mi.id
  else
    cfg.title

/-- `start_command` of `setup_handlers`: clear the chat history, discard the
user from `reporting_users`, process a `"start_command"` turn through the
orchestrator (failures swallowed by `process_message`), then answer the welcome
message and append it to the chat history. -/
def tester_start_command (cfg : TesterCfg) (cbOk : MessageData → Bool)
    (u : TgUser) (chat_id : Nat) (st : TesterState) : TesterState × List TesterOut :=
  let st1 : TesterState :=
    { st with chat_history := [],
              reporting_users := st.reporting_users.filter (fun x => decide (x ≠ u.id)) }
  let outs := process_message cbOk u chat_id st1.user_model_preferences
      "start_command" MsgPayload.empty
  let welcome := tester_welcome cfg st1.user_model_preferences u.id
  ({ st1 with chat_history := [⟨"ai", welcome⟩] },
   outs ++ [TesterOut.answer welcome])

/-- `delete_all_history` of `setup_handlers`. -/
def tester_delete_all_history (cbOk : MessageData → Bool) (u : TgUser)
    (chat_id : Nat) (st : TesterState) : TesterState × List TesterOut :=
  let outs := process_message cbOk u chat_id st.user_model_preferences
      "delete_all_history" MsgPayload.empty
  ({ st with chat_history := [] }, outs)

/-- `TesterBotInterface._handle_report_issue`: add the user to
`reporting_users` (set add: append when absent) and answer the prompt. -/
def handle_report_issue (u : TgUser) (st : TesterState) : TesterState × List TesterOut :=
  let rep := if u.id ∈ st.reporting_users then st.reporting_users
             else st.reporting_users ++ [u.id]
  let prompt := "Please describe the issue: "
  ({ st with reporting_users := rep,
             chat_history := st.chat_history ++ [⟨"ai", prompt⟩] },
   [TesterOut.answer prompt])

/-- `TesterBotInterface._handle_issue_submission`: remove the user from
`reporting_users` (guarded by the caller's membership check), hand the current
chat history, the description and the active model metadata to
`handle_issue_report`, then answer the confirmation and append it. -/
def handle_issue_submission (cfg : TesterCfg) (u : TgUser) (text : String)
    (st : TesterState) : TesterState × List TesterOut :=
  let rep := st.reporting_users.filter (fun x => decide (x ≠ u.id))
  let mi := get_current_model_info cfg st.user_model_preferences u.id
  let confirmation := "Thank you for reporting the issue, starting new chat..."
  ({ st with reporting_users := rep,
             chat_history := st.chat_history ++ [⟨"ai", confirmation⟩] },
   [TesterOut.issue_report u.id text st.chat_history mi,
    TesterOut.answer confirmation])

/-- `TesterBotInterface._handle_model_selection`: answer the model-selection
prompt (the inline keyboard itself is a transport detail). -/
def handle_model_selection (cfg : TesterCfg) (u : TgUser) (st : TesterState) :
    TesterState × List TesterOut :=
  let current_model_name :=
    match dict_get st.user_model_preferences u.id with
    | some mid => (dict_get cfg.allowed_models mid).getD "Default"
    | none => "Default"
  let prompt := "Current model: " ++ current_model_name ++ "\n\nSelect a model:"
  ({ st with chat_history := st.chat_history ++ [⟨"ai", prompt⟩] },
   [TesterOut.answer prompt])

/-- One `PhotoSize` of `message.photo`: Telegram photo descriptors carry no
MIME type; `file_path` is the oracle for `bot.get_file` (`none` models both a
missing `file_path` and a raised exception, which `get_image_as_url` maps to
`None` alike). -/
structure PhotoInfo where
  file_path : Option String
deriving DecidableEq

/-- `message.document`: its declared MIME type and file name, plus the oracle
for downloading and base64-encoding its bytes. -/
structure DocInfo where
  mime_type : Option String
  file_name : Option String
  fetch_b64 : Option String
deriving DecidableEq

/-- `message.voice` / `message.audio`: declared MIME type plus the download
oracle. -/
structure AudioInfo where
  mime_type : Option String
  fetch_b64 : Option String
deriving DecidableEq

/-- `image_utils.py: get_image_as_url`: take the highest-resolution (last)
photo and build the Telegram file URL from the bot token and `file_path`. -/
def get_image_as_url (cfg : TesterCfg) (photos : List PhotoInfo) : Option String :=
  match photos.getLast? with
  | none => none
  | some p =>
    p.file_path.map
      (fun fp => "https://api.telegram.org/file/bot" ++ cfg.token ++ "/" ++ fp)

/-- `file_utils.py: SUPPORTED_DOCUMENT_MIMES`. -/
def SUPPORTED_DOCUMENT_MIMES : List String :=
  ["application/pdf", "application/msword",
   "application/vnd.openxmlformats-officedocument.wordprocessingml.document",
   "text/plain"]

/-- `file_utils.py: is_supported_document`: `message.document.mime_type or ""`
must be in the allow-list; no document means unsupported. -/
def is_supported_document (doc : Option DocInfo) : Bool :=
  match doc with
  | none => false
  | some d => SUPPORTED_DOCUMENT_MIMES.contains (py_or d.mime_type "")

/-- `file_utils.py: get_file_as_base64`: download and encode the document,
returning `(base64_data, mime_type or "application/octet-stream")`. -/
def get_file_as_base64 (d : DocInfo) : Option (String × String) :=
  d.fetch_b64.map (fun b64 => (b64, py_or d.mime_type "application/octet-stream"))

/-- `file_utils.py: get_audio_as_base64`: download and encode voice/audio,
returning `(base64_data, mime_type or "audio/ogg")`. -/
def get_audio_as_base64 (a : AudioInfo) : Option (String × String) :=
  a.fetch_b64.map (fun b64 => (b64, py_or a.mime_type "audio/ogg"))

/-- The inbound message as `handle_telegram_message` dispatches on
`message.content_type`.  `text` is `message.text`; photo, document and
voice/audio messages carry `message.caption`; `other` covers every content
type outside `["text", "photo", "document", "voice", "audio"]`. -/
inductive TgContent
  | text (t : String)
  | photo (photos : List PhotoInfo) (caption : Option String)
  | document (doc : Option DocInfo) (caption : Option String)
  | audio (a : Option AudioInfo) (caption : Option String)
  | other (content_type : String)
deriving DecidableEq

/-- Python `str(x)` for the optional `file_name` interpolated into the chat
history line (`f"Document sent: {file_name}"` prints `None` literally). -/
def py_str_opt (x : Option String) : String :=
  match x with
  | some s => s
  | none => "None"

/-- `handle_telegram_message` of `setup_handlers`, the catch-all message
handler.  Control flow follows the source line by line:
  * `message.text` (only text messages carry it) is appended to the chat
    history up front;
  * photo: `get_image_as_url`; on success build
    `{"image": url, "caption": caption}` and process an `"image_message"`;
    on failure drop the turn silently (`fetch` records the `bot.get_file` call);
  * document: unsupported MIME short-circuits to
    `_send_unsupported_content_message`, whose `get_message
    ("unsupported_content", ...)` raises `KeyError` (the key is in no catalog);
    the outer `except Exception` then answers the generic error message via
    `_send_error_message`.  A supported document is downloaded
    (`get_file_as_base64`) and processed as a `"document_message"`, a failed
    download is only logged;
  * voice/audio: as documents but without the allow-list gate;
  * other content types: the same `unsupported_content` `KeyError` path;
  * text: the model-selector button, then the command table
    (`"🔄 Start New Chat"` and `"⚠️ Report Issue"`, exact equality), then the
    reporting sub-flow (`_handle_issue_submission` followed by
    `start_command`), and otherwise a `"text_message"` turn. -/
def handle_telegram_message (cfg : TesterCfg) (cbOk : MessageData → Bool)
    (u : TgUser) (chat_id : Nat) (content : TgContent) (st : TesterState) :
    TesterState × List TesterOut :=
  let lang := lang_of u
  let st0 :=
    match content with
    | TgContent.text t => { st with chat_history := st.chat_history ++ [⟨"user", t⟩] }
    | _ => st
  match content with
  | TgContent.photo photos caption =>
    match get_image_as_url cfg photos with
    | some url =>
      let cap := py_or caption ""
      let image_data := [("image", url), ("caption", cap)]
      let chat_message := if cap = "" then "Image sent" else cap
      let st1 := { st0 with chat_history := st0.chat_history ++ [⟨"user", chat_message⟩] }
      (st1, [TesterOut.typing, TesterOut.fetch] ++
            process_message cbOk u chat_id st1.user_model_preferences
              "image_message" (MsgPayload.imageData image_data))
    | none =>
      -- no photo: no network call was made; a photo without file_path or a
      -- get_file failure still called the API once
      (st0, [TesterOut.typing] ++ (if photos.isEmpty then [] else [TesterOut.fetch]))
  | TgContent.document doc caption =>
    if is_supported_document doc then
      match doc with
      | some d =>
        let cap := py_or caption ""
        match get_file_as_base64 d with
        | some (file_data, mime) =>
          let chat_message :=
            if cap = "" then "Document sent: " ++ py_str_opt d.file_name else cap
          let st1 := { st0 with chat_history := st0.chat_history ++ [⟨"user", chat_message⟩] }
          (st1, [TesterOut.typing, TesterOut.fetch] ++
                process_message cbOk u chat_id st1.user_model_preferences
                  "document_message"
                  (MsgPayload.documentData file_data mime d.file_name cap))
        | none => (st0, [TesterOut.typing, TesterOut.fetch])
      | none =>
        -- unreachable: is_supported_document none = false
        (st0, [TesterOut.typing])
    else
      match get_message "unsupported_content" lang with
      | some m =>
        ({ st0 with chat_history := st0.chat_history ++ [⟨"ai", m⟩] },
         [TesterOut.typing, TesterOut.answer m])
      | none =>
        let err := get_message_ex "error" lang
        ({ st0 with chat_history := st0.chat_history ++ [⟨"ai", err⟩] },
         [TesterOut.typing, TesterOut.answer err])
  | TgContent.audio a caption =>
    match a with
    | some ai =>
      let cap := py_or caption ""
      match get_audio_as_base64 ai with
      | some (audio_data, mime) =>
        let chat_message := if cap = "" then "Audio message sent" else cap
        let st1 := { st0 with chat_history := st0.chat_history ++ [⟨"user", chat_message⟩] }
        (st1, [TesterOut.typing, TesterOut.fetch] ++
              process_message cbOk u chat_id st1.user_model_preferences
                "audio_message" (MsgPayload.audioData audio_data mime cap))
      | none => (st0, [TesterOut.typing, TesterOut.fetch])
    | none => (st0, [TesterOut.typing])
  | TgContent.other _ =>
    match get_message "unsupported_content" lang with
    | some m =>
      ({ st0 with chat_history := st0.chat_history ++ [⟨"ai", m⟩] },
       [TesterOut.typing, TesterOut.answer m])
    | none =>
      let err := get_message_ex "error" lang
      ({ st0 with chat_history := st0.chat_history ++ [⟨"ai", err⟩] },
       [TesterOut.typing, TesterOut.answer err])
  | TgContent.text t =>
    if t = "🤖 Select Model" ∧ cfg.show_model_selector = true then
      let (st1, outs) := handle_model_selection cfg u st0
      (st1, TesterOut.typing :: outs)
    else if t = "🔄 Start New Chat" then
      let (st1, outs) := tester_start_command cfg cbOk u chat_id st0
      (st1, TesterOut.typing :: outs)
    else if t = "⚠️ Report Issue" then
      let (st1, outs) := handle_report_issue u st0
      (st1, TesterOut.typing :: outs)
    else if u.id ∈ st0.reporting_users then
      let (st1, outs1) := handle_issue_submission cfg u t st0
      let (st2, outs2) := tester_start_command cfg cbOk u chat_id st1
      (st2, TesterOut.typing :: (outs1 ++ outs2))
    else
      (st0, TesterOut.typing ::
            process_message cbOk u chat_id st0.user_model_preferences
              "text_message" (MsgPayload.textData t))

/-- The dispatcher-level events of the tester interface (aiogram routes
`/start` and `/delete_all_history` to their command handlers, model-selection
callback queries to `handle_model_selection_callback`, and every other message
to `handle_telegram_message`). -/
inductive TesterEvent
  | start_cmd
  | delete_all_history_cmd
  | select_model_cb (model_id : String)
  | msg (content : TgContent)
deriving DecidableEq

/-- One dispatcher step of the tester interface. -/
def tester_step (cfg : TesterCfg) (cbOk : MessageData → Bool) (u : TgUser)
    (chat_id : Nat) (ev : TesterEvent) (st : TesterState) :
    TesterState × List TesterOut :=
  match ev with
  | TesterEvent.start_cmd => tester_start_command cfg cbOk u chat_id st
  | TesterEvent.delete_all_history_cmd => tester_delete_all_history cbOk u chat_id st
  | TesterEvent.select_model_cb mid =>
    let model_name := (dict_get cfg.allowed_models mid).getD mid
    ({ st with user_model_preferences := dict_set st.user_model_preferences u.id mid },
     [TesterOut.callback_ack ("Selected: " ++ model_name),
      TesterOut.edit_text ("✅ Model changed to: " ++ model_name ++
        "\n\nYour next messages will use this model.")])
  | TesterEvent.msg c => handle_telegram_message cfg cbOk u chat_id c st

/-
The unified session state machine of spec section 4.2.

No single module of src/ carries both fields of the spec's Session: the
AWAITING_CONTEXT/ACTIVE enum lives in view.py (which has no reporting flag)
and the reporting flag lives in telegram_tester_bot.py (which tracks no
AWAITING_CONTEXT/ACTIVE state).  The machine combining them exists only in the
spec, so it is modelled from the spec's words below and the reporting
invariant is proved about that model.
-/

/-- Modelled from the spec: the session `state` enum of section 3,
`{AWAITING_CONTEXT, ACTIVE}`. -/
inductive SessState
  | awaiting_context
  | active
deriving DecidableEq

/-- Modelled from the spec: the session fields involved in the reporting
invariant of sections 3 and 8. -/
structure SpecSession where
  state : SessState
  reporting : Bool
deriving DecidableEq

/-- Modelled from the spec: the inbound events of the section 4.2 transition
table (`start`, free-form or command text, non-text content). -/
inductive SpecEvent
  | start
  | text (t : String)
  | attachment
deriving DecidableEq

/-- Modelled from the spec, section 4.2 (missing from src/ as a single
machine): `start` clears `reporting` and returns to AWAITING_CONTEXT; text
while AWAITING_CONTEXT becomes the context and activates the session; text
while ACTIVE is the issue description when `reporting` is set (clear
`reporting`, then behave as if `start` had been invoked), begins the reporting
sub-flow on the report-issue command, and is otherwise forwarded without a
state change; non-text content never changes the state.  The command tokens
are the tester interface's button texts. -/
def spec_step (ev : SpecEvent) (s : SpecSession) : SpecSession :=
  match ev with
  | SpecEvent.start => { state := SessState.awaiting_context, reporting := false }
  | SpecEvent.attachment => s
  | SpecEvent.text t =>
    match s.state with
    | SessState.awaiting_context => { s with state := SessState.active }
    | SessState.active =>
      if s.reporting then
        { state := SessState.awaiting_context, reporting := false }
      else if t = "⚠️ Report Issue" then
        { s with reporting := true }
      else if t = "🤖 Select Model" then
        s
      else
        s

/-- Modelled from the spec: a fresh session starts in AWAITING_CONTEXT with
the reporting flag clear. -/
def spec_init : SpecSession :=
  { state := SessState.awaiting_context, reporting := false }

/-- The session reached after processing an event trace from a fresh session. -/
def run_spec (evs : List SpecEvent) : SpecSession :=
  evs.foldl (fun s e => spec_step e s) spec_init

/-
Concrete fixtures used by the witnesses and counterexamples.
-/

/-- A concrete tester configuration with the model selector disabled. -/
def exCfg : TesterCfg :=
  { title := "Tester Bot", show_model_selector := false,
    get_model_by_id := fun _ => none,
    default_model := { id := "gpt-4o", name := none, provider := "openai",
                       source := "config_default" },
    allowed_models := [], token := "TOKEN" }

/-- A concrete inbound document whose MIME type (`application/zip`) is outside
the supported-document allow-list. -/
def unsupported_doc_event : TgContent :=
  TgContent.document (some ⟨some "application/zip", some "archive.zip", some "QUJD"⟩)
    none

/-- The tester handler applied to the unsupported document, from an empty
state, for an English-language user. -/
def c5_run : TesterState × List TesterOut :=
  handle_telegram_message exCfg (fun _ => true) ⟨9, some "en"⟩ 9
    unsupported_doc_event ⟨[], [], []⟩

/-
Helper lemmas.
-/

/-- Writing a key and reading it back. -/
theorem dict_get_set_self {κ α : Type} [DecidableEq κ] (d : List (κ × α))
    (k : κ) (v : α) : dict_get (dict_set d k v) k = some v := by
  simp [dict_set, dict_get]

/-- Filtering out an element removes it. -/
theorem not_mem_filter_ne (l : List Nat) (a : Nat) :
    a ∉ l.filter (fun x => decide (x ≠ a)) := by
  simp [List.mem_filter]

/-- An SQL UPDATE of an existing row is visible to a subsequent SELECT. -/
theorem db_update_description_get (db : UserDb) (u : Nat) (t : String)
    (h : (dict_get db u).isSome) :
    dict_get (db_update_description db u t) u = some t := by
  induction db with
  | nil => simp [dict_get] at h
  | cons r rest ih =>
    obtain ⟨k, v⟩ := r
    by_cases hr : k = u
    · simp [db_update_description, dict_get, hr]
    · have h' : (dict_get rest u).isSome = true := by
        simpa [dict_get, hr] using h
      simp [db_update_description, dict_get, hr, ih h']

/-- The language mapping of `get_message` resolves every string to nothing,
Russian or Hebrew. -/
theorem mapping_cases (s : String) :
    dict_get language_mapping s = none ∨ dict_get language_mapping s = some "ru" ∨
    dict_get language_mapping s = some "he" := by
  simp only [language_mapping, dict_get]
  split_ifs <;> simp

/-- A key present in the English table is one of the three catalog keys. -/
theorem en_key_cases (k : String) (h : (dict_get en_messages k).isSome) :
    k = "welcome" ∨ k = "description_accepted" ∨ k = "error" := by
  simp only [en_messages, dict_get] at h
  split_ifs at h with h1 h2 h3
  · exact Or.inl h1.symm
  · exact Or.inr (Or.inl h2.symm)
  · exact Or.inr (Or.inr h3.symm)
  · simp at h

/-- `get_message` never raises for the keys the handlers use. -/
theorem get_message_handler_keys_total (k : String)
    (h : (dict_get en_messages k).isSome) (lc : String) :
    (get_message k lc).isSome := by
  rcases en_key_cases k h with hk | hk | hk <;> subst hk <;>
    rcases mapping_cases (py_lower lc) with hm | hm | hm <;>
      simp only [get_message, hm] <;> decide

/-- `spec_step` preserves the reporting invariant. -/
theorem spec_step_preserves (e : SpecEvent) (s : SpecSession)
    (h : s.reporting = true → s.state = SessState.active) :
    (spec_step e s).reporting = true → (spec_step e s).state = SessState.active := by
  cases e with
  | start => simp [spec_step]
  | attachment => exact h
  | text t =>
    cases hs : s.state with
    | awaiting_context => simp [spec_step, hs]
    | active =>
      by_cases hr : s.reporting
      · simp [spec_step, hs, hr]
      · simp only [spec_step, hs, hr, if_false]
        split_ifs <;> simp [hs]

/-- The reporting invariant is inductive along any event trace. -/
theorem spec_foldl_invariant (evs : List SpecEvent) (s : SpecSession)
    (h : s.reporting = true → s.state = SessState.active) :
    (evs.foldl (fun s e => spec_step e s) s).reporting = true →
    (evs.foldl (fun s e => spec_step e s) s).state = SessState.active := by
  induction evs generalizing s with
  | nil => simpa using h
  | cons e rest ih => exact ih (spec_step e s) (spec_step_preserves e s h)

/-
Claim theorems.
-/

/-- C1: for every reachable session state of the unified session machine
(modelled from the spec, since no module of src/ carries both the state enum
and the reporting flag), a set reporting sub-flag implies the session is in
the ACTIVE (chatting) state; the invariant holds after every event-processing
transition, i.e. along every event trace from a fresh session. -/
theorem c1_reporting_implies_active (evs : List SpecEvent)
    (h : (run_spec evs).reporting = true) :
    (run_spec evs).state = SessState.active :=
  spec_foldl_invariant evs spec_init (by intro hh; simp [spec_init] at hh) h

/-- C1 witness: after supplying a context and pressing the report-issue
command the session is reporting, and the theorem yields that it is ACTIVE. -/
theorem c1_reporting_implies_active_witness :
    (run_spec [SpecEvent.text "We sell coffee", SpecEvent.text "⚠️ Report Issue"]).reporting
      = true
    ∧ (run_spec [SpecEvent.text "We sell coffee", SpecEvent.text "⚠️ Report Issue"]).state
      = SessState.active :=
  ⟨by decide,
   c1_reporting_implies_active
     [SpecEvent.text "We sell coffee", SpecEvent.text "⚠️ Report Issue"] (by decide)⟩

/-- C6: for every message key of the catalog (a key of the default English
table) and every language code string, `get_message` returns a string; when
the requested language is not in the supported-language mapping the result is
exactly the English catalog entry, and when the mapped language's table lacks
the key the result falls back to the English catalog as well. -/
theorem c6_get_message_falls_back (k : String)
    (h : (dict_get en_messages k).isSome) (lc : String) :
    (get_message k lc).isSome = true
    ∧ (dict_get language_mapping (py_lower lc) = none →
       get_message k lc = dict_get en_messages k)
    ∧ (∀ lang, dict_get language_mapping (py_lower lc) = some lang →
       (dict_get MESSAGES lang).bind (fun tbl => dict_get tbl k) = none →
       get_message k lc = dict_get en_messages k) := by

  refine ⟨get_message_handler_keys_total k h lc, ?_, ?_⟩
  · intro hm
    rcases en_key_cases k h with hk | hk | hk <;> subst hk <;>
      simp only [get_message, hm] <;> decide
  · intro lang h1 h2
    simp only [get_message, h1, Option.getD_some, h2]
    simp [MESSAGES, dict_get]

/-- C6 witness: an unsupported language code falls back to English and still
yields a string. -/
theorem c6_witness :
    (get_message "welcome" "fr").isSome = true
    ∧ get_message "welcome" "fr" = dict_get en_messages "welcome" := by
  have h := c6_get_message_falls_back "welcome" (by decide) "fr"
  exact ⟨h.1, h.2.1 (by decide)⟩

/-- C10: for every key of the English catalog, the legacy Hebrew code "iw"
yields exactly the same string as the modern code "he", and the language-code
matching is case-insensitive (the result depends on the language code only
through its lower-casing). -/
theorem c10_hebrew_code_aliasing (k : String)
    (h : (dict_get en_messages k).isSome) :
    get_message k "iw" = get_message k "he"
    ∧ (get_message k "iw").isSome = true
    ∧ (∀ lc lc' : String, py_lower lc = py_lower lc' →
       get_message k lc = get_message k lc') := by
  refine ⟨?_, get_message_handler_keys_total k h "iw", ?_⟩
  · have hiw : dict_get language_mapping (py_lower "iw") = some "he" := by decide
    have hhe : dict_get language_mapping (py_lower "he") = some "he" := by decide
    simp only [get_message, hiw, hhe]
  · intro lc lc' hl
    simp only [get_message, hl]

/-- C10 witness: the "error" key agrees between "iw" and "he", and upper-case
"IW" behaves like "iw". -/
theorem c10_witness :
    get_message "error" "iw" = get_message "error" "he"
    ∧ (get_message "error" "iw").isSome = true
    ∧ get_message "error" "IW" = get_message "error" "iw" := by
  have h := c10_hebrew_code_aliasing "error" (by decide)
  exact ⟨h.1, h.2.1, h.2.2 "IW" "iw" (by decide)⟩

/-- C2 (amended): processing the start command, from any prior state, leaves
the View session in WAITING_FOR_DESCRIPTION and, in the tester interface,
clears the reporting flag and clears the transcript — which then holds exactly
the welcome message that `start_command` emits, so it is not empty after the
transition (the original claim's "empty transcript" fails, see the
counterexample). -/
theorem c2_start_command_reset :
    (∀ (cbV : Bool) (u : Nat) (lang : String) (st : ViewState),
       dict_get (view_start_command cbV u lang st).1.user_states u
         = some UserState.waiting_for_description)
    ∧ (∀ (cfg : TesterCfg) (cbOk : MessageData → Bool) (u : TgUser)
         (chat_id : Nat) (st : TesterState),
         u.id ∉ (tester_start_command cfg cbOk u chat_id st).1.reporting_users
         ∧ (tester_start_command cfg cbOk u chat_id st).1.chat_history
             = [⟨"ai", tester_welcome cfg st.user_model_preferences u.id⟩]) := by
  constructor
  · intro cbV u lang st
    simp [view_start_command, dict_get_set_self]
  · intro cfg cbOk u chat_id st
    exact ⟨not_mem_filter_ne st.reporting_users u.id, rfl⟩

/-- C2 counterexample: after a /start the tester transcript is not empty — it
contains exactly the welcome message appended by `start_command`. -/
theorem c2_counterexample :
    (tester_start_command exCfg (fun _ => true) ⟨7, some "en"⟩ 7
        ⟨[⟨"user", "hi"⟩, ⟨"ai", "hello"⟩], [7], []⟩).1.chat_history
      = [⟨"ai", "Tester Bot"⟩]
    ∧ (tester_start_command exCfg (fun _ => true) ⟨7, some "en"⟩ 7
        ⟨[⟨"user", "hi"⟩, ⟨"ai", "hello"⟩], [7], []⟩).1.chat_history ≠ [] := by
  decide

/-- C3 (amended): a free-form text received while the (lazily initialized)
session state is WAITING_FOR_DESCRIPTION always transitions the session to
CHATTING, answers exactly the localized acknowledgment, and performs no
orchestrator callback; the text is stored as the business description whenever
the user's database row exists (it is created by /start) — for a user without
a row the SQL UPDATE is a silent no-op and no context is stored (see the
counterexample). -/
theorem c3_awaiting_text_transition (cbOk : ViewCallbackData → Bool) (u : Nat)
    (username lang t : String) (st : ViewState)
    (h : dict_get (view_init_state st u).user_states u
           = some UserState.waiting_for_description) :
    dict_get (view_handle_message cbOk u username lang
        (ViewContent.text t) st).1.user_states u = some UserState.chatting
    ∧ (view_handle_message cbOk u username lang (ViewContent.text t) st).2
        = [ViewOut.typing, ViewOut.answer (get_message_ex "description_accepted" lang)]
    ∧ (∀ d, ViewOut.callback d ∉
        (view_handle_message cbOk u username lang (ViewContent.text t) st).2)
    ∧ ((dict_get st.db u).isSome →
       db_get_description (view_handle_message cbOk u username lang
         (ViewContent.text t) st).1.db u = some t) := by
  have hdb : (view_init_state st u).db = st.db := by
    unfold view_init_state
    cases dict_get st.user_states u with
    | none => split_ifs <;> rfl
    | some s => rfl
  refine ⟨?_, ?_, ?_, ?_⟩
  · simp only [view_handle_message, h]
    exact dict_get_set_self _ _ _
  · simp only [view_handle_message, h]
  · intro d
    simp only [view_handle_message, h]
    simp
  · intro hrow
    simp only [view_handle_message, h, db_get_description]
    rw [hdb]
    exact db_update_description_get st.db u t hrow

/-- C3 witness: a user with an existing row (created by /start) supplies the
business description while awaiting context. -/
theorem c3_witness :
    dict_get (view_handle_message (fun _ => true) 5 "bob" "en"
        (ViewContent.text "We sell coffee, open 8-18")
        ⟨[(5, UserState.waiting_for_description)], [(5, "")]⟩).1.user_states 5
      = some UserState.chatting
    ∧ db_get_description (view_handle_message (fun _ => true) 5 "bob" "en"
        (ViewContent.text "We sell coffee, open 8-18")
        ⟨[(5, UserState.waiting_for_description)], [(5, "")]⟩).1.db 5
      = some "We sell coffee, open 8-18" := by
  have h := c3_awaiting_text_transition (fun _ => true) 5 "bob" "en"
    "We sell coffee, open 8-18"
    ⟨[(5, UserState.waiting_for_description)], [(5, "")]⟩ (by decide)
  exact ⟨h.1, h.2.2.2 (by decide)⟩

/-- C3 counterexample: a fresh user with no database row (no prior /start) is
lazily classified as WAITING_FOR_DESCRIPTION, yet after sending the text the
stored description is still absent — the text was not stored as the session
context, refuting the claim as stated. -/
theorem c3_counterexample :
    dict_get (view_init_state (⟨[], []⟩ : ViewState) 5).user_states 5
      = some UserState.waiting_for_description
    ∧ dict_get (view_handle_message (fun _ => true) 5 "bob" "en"
        (ViewContent.text "We sell coffee, open 8-18")
        ⟨[], []⟩).1.user_states 5 = some UserState.chatting
    ∧ db_get_description (view_handle_message (fun _ => true) 5 "bob" "en"
        (ViewContent.text "We sell coffee, open 8-18") ⟨[], []⟩).1.db 5 = none := by
  decide

/-- C4: when the orchestrator callback raises, an ordinary text turn answers
the user exactly one message — the localized generic error — while control
turns (the start command and history deletion) swallow the failure: the tester
control turn emits only the callback invocation, and the View /start emits the
delete-history call and the welcome regardless of whether the callback raised,
with no error message. -/
theorem c4_callback_failure_asymmetry (u : TgUser) (chat_id : Nat)
    (prefs : List (Nat × String)) (t : String) (mtype : String)
    (payload : MsgPayload) (cbV : Bool) (vu : Nat) (username lang : String)
    (st : ViewState)
    (hctl : mtype = "start_command" ∨ mtype = "delete_all_history") :
    process_message (fun _ => false) u chat_id prefs "text_message"
        (MsgPayload.textData t)
      = [TesterOut.handle_message (build_message_data u chat_id prefs
           "text_message" (MsgPayload.textData t)),
         TesterOut.answer (get_message_ex "error" (lang_of u))]
    ∧ process_message (fun _ => false) u chat_id prefs mtype payload
        = [TesterOut.handle_message (build_message_data u chat_id prefs mtype payload)]
    ∧ (view_start_command cbV vu lang st).2
        = [ViewOut.callback (ViewCallbackData.delete_entries_by_thread_id
             (toString vu) (toString vu)),
           ViewOut.answer (get_message_ex "welcome" lang)]
    ∧ (dict_get (view_init_state st vu).user_states vu = some UserState.chatting →
       desc_truthy (view_init_state st vu).db vu = true →
       (view_handle_message (fun _ => false) vu username lang
           (ViewContent.text t) st).2
         = [ViewOut.typing,
            ViewOut.callback (ViewCallbackData.text (toString vu) (toString vu)
              (toString vu) t username),
            ViewOut.answer (get_message_ex "error" lang)]) := by
  refine ⟨rfl, ?_, rfl, ?_⟩
  · rcases hctl with hc | hc <;> subst hc <;> rfl
  · intro h1 h2
    simp [view_handle_message, h1, h2]

/-- C4 witness: a failing callback on a control turn emits no message, while a
failing callback on a chatting text turn answers exactly the error message. -/
theorem c4_witness :
    process_message (fun _ => false) ⟨3, some "en"⟩ 3 [] "start_command"
        MsgPayload.empty
      = [TesterOut.handle_message (build_message_data ⟨3, some "en"⟩ 3 []
           "start_command" MsgPayload.empty)]
    ∧ (view_handle_message (fun _ => false) 5 "bob" "en" (ViewContent.text "hello")
        ⟨[(5, UserState.chatting)], [(5, "We sell coffee")]⟩).2
      = [ViewOut.typing,
         ViewOut.callback (ViewCallbackData.text (toString 5) (toString 5)
           (toString 5) "hello" "bob"),
         ViewOut.answer (get_message_ex "error" "en")] := by
  have h := c4_callback_failure_asymmetry ⟨3, some "en"⟩ 3 [] "hello"
    "start_command" MsgPayload.empty true 5 "bob" "en"
    ⟨[(5, UserState.chatting)], [(5, "We sell coffee")]⟩ (Or.inl rfl)
  exact ⟨h.2.1, h.2.2.2 (by decide) (by decide)⟩

/-- C5 (code bug): a document attachment with an unlisted MIME type makes no
attachment fetch and no orchestrator call, but the user does not receive the
"unsupported content" message the spec promises: the catalog has no
`unsupported_content` key in any language, so `get_message` raises `KeyError`
and the handler's outer exception branch answers the localized generic error
message instead. -/
theorem c5_unsupported_document_bug :
    get_message "unsupported_content" "en" = none
    ∧ c5_run.2 = [TesterOut.typing, TesterOut.answer (get_message_ex "error" "en")]
    ∧ c5_run.1.chat_history = [⟨"ai", get_message_ex "error" "en"⟩]
    ∧ TesterOut.fetch ∉ c5_run.2
    ∧ (∀ md, TesterOut.handle_message md ∉ c5_run.2) := by
  have houts : c5_run.2
      = [TesterOut.typing, TesterOut.answer (get_message_ex "error" "en")] := by
    decide
  refine ⟨by decide, houts, by decide, ?_, ?_⟩
  · rw [houts]; simp
  · intro md; rw [houts]; simp

/-- C7 (amended): a free text sent by a user whose reporting flag is set (and
which is none of the command-button texts) hands the Issue Reporter the
current transcript snapshot — including the description just appended — the
description and the active model metadata, clears the reporting flag, answers
the confirmation, and then invokes the start command: a `start_command`
control turn is processed and the transcript, cleared by start, afterwards
holds exactly the welcome message (not the empty transcript the original
claim states — see the counterexample). -/
theorem c7_issue_submission_flow (cfg : TesterCfg) (cbOk : MessageData → Bool)
    (u : TgUser) (chat_id : Nat) (t : String) (st : TesterState)
    (hrep : u.id ∈ st.reporting_users)
    (h1 : ¬(t = "🤖 Select Model" ∧ cfg.show_model_selector = true))
    (h2 : t ≠ "🔄 Start New Chat")
    (h3 : t ≠ "⚠️ Report Issue") :
    TesterOut.issue_report u.id t (st.chat_history ++ [⟨"user", t⟩])
        (get_current_model_info cfg st.user_model_preferences u.id)
      ∈ (handle_telegram_message cfg cbOk u chat_id (TgContent.text t) st).2
    ∧ u.id ∉ (handle_telegram_message cfg cbOk u chat_id
        (TgContent.text t) st).1.reporting_users
    ∧ TesterOut.answer "Thank you for reporting the issue, starting new chat..."
      ∈ (handle_telegram_message cfg cbOk u chat_id (TgContent.text t) st).2
    ∧ TesterOut.handle_message (build_message_data u chat_id
        st.user_model_preferences "start_command" MsgPayload.empty)
      ∈ (handle_telegram_message cfg cbOk u chat_id (TgContent.text t) st).2
    ∧ (handle_telegram_message cfg cbOk u chat_id (TgContent.text t) st).1.chat_history
      = [⟨"ai", tester_welcome cfg st.user_model_preferences u.id⟩] := by
  simp only [handle_telegram_message, if_neg h1, if_neg h2, if_neg h3]
  rw [if_pos hrep]
  refine ⟨?_, ?_, ?_, ?_, ?_⟩
  · simp [handle_issue_submission, tester_start_command, process_message]
  · simp only [tester_start_command, handle_issue_submission]
    exact not_mem_filter_ne _ _
  · simp [handle_issue_submission, tester_start_command, process_message]
  · simp only [handle_issue_submission, tester_start_command, process_message]
    by_cases hcb : cbOk (build_message_data u chat_id st.user_model_preferences
        "start_command" MsgPayload.empty) <;> simp [hcb]
  · rfl

/-- C7 witness: a reporting user submits a description; the reporter receives
the snapshot, model metadata and description, the flag clears, the
confirmation is answered, and start runs. -/
theorem c7_witness :
    TesterOut.issue_report 3 "the bot repeats itself"
        ([⟨"user", "hi"⟩, ⟨"ai", "hello"⟩] ++ [⟨"user", "the bot repeats itself"⟩])
        (get_current_model_info exCfg [] 3)
      ∈ (handle_telegram_message exCfg (fun _ => true) ⟨3, some "en"⟩ 3
          (TgContent.text "the bot repeats itself")
          ⟨[⟨"user", "hi"⟩, ⟨"ai", "hello"⟩], [3], []⟩).2
    ∧ (3 : Nat) ∉ (handle_telegram_message exCfg (fun _ => true) ⟨3, some "en"⟩ 3
          (TgContent.text "the bot repeats itself")
          ⟨[⟨"user", "hi"⟩, ⟨"ai", "hello"⟩], [3], []⟩).1.reporting_users
    ∧ TesterOut.answer "Thank you for reporting the issue, starting new chat..."
      ∈ (handle_telegram_message exCfg (fun _ => true) ⟨3, some "en"⟩ 3
          (TgContent.text "the bot repeats itself")
          ⟨[⟨"user", "hi"⟩, ⟨"ai", "hello"⟩], [3], []⟩).2
    ∧ TesterOut.handle_message (build_message_data ⟨3, some "en"⟩ 3 []
          "start_command" MsgPayload.empty)
      ∈ (handle_telegram_message exCfg (fun _ => true) ⟨3, some "en"⟩ 3
          (TgContent.text "the bot repeats itself")
          ⟨[⟨"user", "hi"⟩, ⟨"ai", "hello"⟩], [3], []⟩).2
    ∧ (handle_telegram_message exCfg (fun _ => true) ⟨3, some "en"⟩ 3
          (TgContent.text "the bot repeats itself")
          ⟨[⟨"user", "hi"⟩, ⟨"ai", "hello"⟩], [3], []⟩).1.chat_history
      = [⟨"ai", tester_welcome exCfg [] 3⟩] :=
  c7_issue_submission_flow exCfg (fun _ => true) ⟨3, some "en"⟩ 3
    "the bot repeats itself" ⟨[⟨"user", "hi"⟩, ⟨"ai", "hello"⟩], [3], []⟩
    (by decide) (by decide) (by decide) (by decide)

/-- C7 counterexample: after the compound report-and-reset transition the
transcript is not empty — it holds the welcome message emitted by the start
command the flow invokes. -/
theorem c7_counterexample :
    (handle_telegram_message exCfg (fun _ => true) ⟨4, some "en"⟩ 4
        (TgContent.text "the bot ignores my answers")
        ⟨[⟨"user", "q"⟩], [4], []⟩).1.chat_history = [⟨"ai", "Tester Bot"⟩]
    ∧ (handle_telegram_message exCfg (fun _ => true) ⟨4, some "en"⟩ 4
        (TgContent.text "the bot ignores my answers")
        ⟨[⟨"user", "q"⟩], [4], []⟩).1.chat_history ≠ [] := by
  decide

/-- C8 (amended): an image attachment (object storage is never consulted for
images; the URL strategy is what the tester uses) resolves to the payload
`{"image": url, "caption": caption}` forwarded as an `image_message`; the
payload carries the remote URL but no `mime_type` key at all — Telegram photo
descriptors expose no MIME type and `get_image_as_url` returns only a URL, so
there is no mime type to match the source descriptor (the original claim's
mime-type equation is refuted by the counterexample). -/
theorem c8_image_url_payload (cfg : TesterCfg) (cbOk : MessageData → Bool)
    (u : TgUser) (chat_id : Nat) (photos : List PhotoInfo)
    (caption : Option String) (st : TesterState) (p : PhotoInfo) (fp : String)
    (hlast : photos.getLast? = some p) (hfp : p.file_path = some fp) :
    TesterOut.handle_message (build_message_data u chat_id
        st.user_model_preferences "image_message" (MsgPayload.imageData
          [("image", "https://api.telegram.org/file/bot" ++ cfg.token ++ "/" ++ fp),
           ("caption", py_or caption "")]))
      ∈ (handle_telegram_message cfg cbOk u chat_id
          (TgContent.photo photos caption) st).2
    ∧ dict_get [("image", "https://api.telegram.org/file/bot" ++ cfg.token ++ "/" ++ fp),
        ("caption", py_or caption "")] "image"
      = some ("https://api.telegram.org/file/bot" ++ cfg.token ++ "/" ++ fp)
    ∧ dict_get [("image", "https://api.telegram.org/file/bot" ++ cfg.token ++ "/" ++ fp),
        ("caption", py_or caption "")] "mime_type"
      = (none : Option String) := by
  have himg : get_image_as_url cfg photos
      = some ("https://api.telegram.org/file/bot" ++ cfg.token ++ "/" ++ fp) := by
    simp [get_image_as_url, hlast, hfp]
  refine ⟨?_, ?_, ?_⟩
  · simp only [handle_telegram_message, himg]
    by_cases hcb : cbOk (build_message_data u chat_id st.user_model_preferences
        "image_message" (MsgPayload.imageData
          [("image", "https://api.telegram.org/file/bot" ++ cfg.token ++ "/" ++ fp),
           ("caption", py_or caption "")])) <;>
      simp [process_message, hcb]
  · simp [dict_get]
  · simp [dict_get]

/-- C8 witness: a concrete photo with a file path resolves to the URL payload
carrying the image URL and caption and no mime type. -/
theorem c8_witness :
    TesterOut.handle_message (build_message_data ⟨4, some "en"⟩ 4 []
        "image_message" (MsgPayload.imageData
          [("image", "https://api.telegram.org/file/bot" ++ "TOKEN" ++ "/"
              ++ "photos/file_1.jpg"),
           ("caption", py_or (some "my pic") "")]))
      ∈ (handle_telegram_message exCfg (fun _ => true) ⟨4, some "en"⟩ 4
          (TgContent.photo [⟨some "photos/file_1.jpg"⟩] (some "my pic"))
          ⟨[], [], []⟩).2
    ∧ dict_get [("image", "https://api.telegram.org/file/bot" ++ "TOKEN" ++ "/"
          ++ "photos/file_1.jpg"),
        ("caption", py_or (some "my pic") "")] "mime_type"
      = (none : Option String) := by
  have h := c8_image_url_payload exCfg (fun _ => true) ⟨4, some "en"⟩ 4
    [⟨some "photos/file_1.jpg"⟩] (some "my pic") ⟨[], [], []⟩
    ⟨some "photos/file_1.jpg"⟩ "photos/file_1.jpg" (by decide) (by decide)
  exact ⟨h.1, h.2.2⟩

/-- C8 counterexample: the forwarded image payload of a concrete photo turn
has exactly the keys `image` and `caption` — a `mime_type` lookup yields
nothing, so it cannot equal any MIME type of the source descriptor, refuting
the claim as stated. -/
theorem c8_counterexample :
    (handle_telegram_message exCfg (fun _ => true) ⟨6, some "en"⟩ 6
        (TgContent.photo [⟨some "photos/file_9.jpg"⟩] none) ⟨[], [], []⟩).2
      = [TesterOut.typing, TesterOut.fetch,
         TesterOut.handle_message
           { mtype := "image_message", user_id := 6, chat_id := 6,
             language_code := "en",
             text := MsgPayload.imageData
               [("image", "https://api.telegram.org/file/botTOKEN/photos/file_9.jpg"),
                ("caption", "")],
             settings_model := none }]
    ∧ dict_get [("image", "https://api.telegram.org/file/botTOKEN/photos/file_9.jpg"),
        ("caption", "")] "mime_type" = (none : Option String) := by
  decide
